import Mathlib

/-!
Verification of the asylo remote-attestation core against its design
specification.  The development shallowly embeds two components:

* the Intel ECDSA quote codec (`PackDcapQuote` / `ParseDcapPackedQuote`),
* the null assertion scheme and the assertion-authority registry.

The implementation sources of these components are not part of the
repository snapshot (only their unit tests are), so every operation is
modelled from the specification text, with the unit tests fixing the
observable behaviour (round trip, truncation and oversize failures,
null-scheme compatibility and rejection behaviour).
-/

namespace Asylo

/-- Status codes used by the absl-style `Status` values in the code base. -/
inductive GoogleError where
  | OK
  | INVALID_ARGUMENT
  | FAILED_PRECONDITION
  | NOT_FOUND
  | ALREADY_EXISTS
  | INTERNAL
deriving DecidableEq

/-- Modelled from the spec: an absl-style status, a code plus a
diagnostic message (spec section 7, error handling design). -/
structure Status where
  code : GoogleError
  message : String
deriving DecidableEq

/-- The OK status. -/
def Status.okStatus : Status := ⟨.OK, ""⟩

/-- Shorthand for an INVALID_ARGUMENT status carrying a message. -/
def invalidArgument (m : String) : Status := ⟨.INVALID_ARGUMENT, m⟩

/-- A byte of the wire format. -/
abbrev Byte := Fin 256

/-- Truncate a natural number to one byte, as a store into a `uint8_t`. -/
def byteOf (n : Nat) : Byte := ⟨n % 256, Nat.mod_lt _ (by norm_num)⟩

/-- Little-endian encoding of a `uint16_t` value, as produced by
appending the two bytes of the trivial object to the output buffer. -/
def encodeUint16 (n : Nat) : List Byte := [byteOf n, byteOf (n / 256)]

/-- Little-endian encoding of a `uint32_t` value. -/
def encodeUint32 (n : Nat) : List Byte :=
  [byteOf n, byteOf (n / 256), byteOf (n / 65536), byteOf (n / 16777216)]

/-- Little-endian decoding of two bytes into a `uint16_t` value. -/
def decodeUint16 : List Byte → Nat
  | [b0, b1] => b0.val + 256 * b1.val
  | _ => 0

/-- Little-endian decoding of four bytes into a `uint32_t` value. -/
def decodeUint32 : List Byte → Nat
  | [b0, b1, b2, b3] => b0.val + 256 * (b1.val + 256 * (b2.val + 256 * b3.val))
  | _ => 0

/-- Size in bytes of the fixed quote header record.  The exact widths of
the fixed records are set by the external vendor specification (spec
section 4.7 and the open question in section 9); the concrete values
used here are those of the Intel DCAP format.  None of the proved
properties depends on the particular values. -/
def kHeaderSize : Nat := 48

/-- Size in bytes of the fixed quote body record (the enclave report). -/
def kBodySize : Nat := 384

/-- Size in bytes of the fixed quote signature record. -/
def kSignatureSize : Nat := 576

/-- Modelled from the spec: the certificate-data field of a quote, a
type tag (`uint16_t`) plus variable-length bytes (spec section 3,
`IntelQeQuote`). -/
structure IntelCertData where
  qe_cert_data_type : Nat
  qe_cert_data : List Byte
deriving DecidableEq

/-- Modelled from the spec: the in-memory representation of an Intel QE
quote — fixed-size header, body and signature records, optional
variable-length QE authentication data, and certificate data (spec
section 3, `IntelQeQuote`). -/
structure IntelQeQuote where
  header : List Byte
  body : List Byte
  signature : List Byte
  qe_authn_data : List Byte
  cert_data : IntelCertData
deriving DecidableEq

/-- A structurally valid quote: the fixed records have their mandated
widths, and every variable-length field fits its wire-format size
field (spec section 4.7: pack always succeeds for quotes within
representable-size limits). -/
def StructurallyValid (q : IntelQeQuote) : Prop :=
  q.header.length = kHeaderSize ∧
  q.body.length = kBodySize ∧
  q.signature.length = kSignatureSize ∧
  q.qe_authn_data.length < 2 ^ 16 ∧
  q.cert_data.qe_cert_data_type < 2 ^ 16 ∧
  kSignatureSize + 2 + q.qe_authn_data.length + 2 + 4 +
      q.cert_data.qe_cert_data.length < 2 ^ 32

instance (q : IntelQeQuote) : Decidable (StructurallyValid q) := by
  unfold StructurallyValid; infer_instance

/-- The total length of the signature-data region of a packed quote:
the fixed signature record, the authentication data with its two-byte
length, and the certificate data with its two-byte type tag and
four-byte length. -/
def sigDataSize (q : IntelQeQuote) : Nat :=
  kSignatureSize + 2 + q.qe_authn_data.length + 2 + 4 +
    q.cert_data.qe_cert_data.length

/-- Modelled from the spec: `PackDcapQuote` serializes the fixed
records in their specified order, then the signature-data region: the
raw signature record, the length-prefixed authentication data, and the
certificate data written as type tag, length, bytes; the declared
signature-data length is set to the exact total size of that region
(spec section 4.7). -/
def PackDcapQuote (q : IntelQeQuote) : List Byte :=
  q.header ++ (q.body ++ (encodeUint32 (sigDataSize q) ++
    (q.signature ++
    (encodeUint16 q.qe_authn_data.length ++ (q.qe_authn_data ++
    (encodeUint16 q.cert_data.qe_cert_data_type ++
    (encodeUint32 q.cert_data.qe_cert_data.length ++
    q.cert_data.qe_cert_data)))))))

/-- The parse error raised when the input ends before a declared field
can be fully read (spec section 4.7: buffer too small). -/
def readFailure : Except Status IntelQeQuote :=
  .error (invalidArgument "Input buffer ended before a quote field could be read")

/-- The parse error message raised when the declared signature-data
size does not match the bytes actually present. -/
def expectedSizeMessage (expected actual : Nat) : String :=
  "Expected signature data size of " ++
    (toString expected ++ (" bytes, but got " ++ toString actual))

/-- Modelled from the spec: parsing of the signature-data region — the
fixed signature record, the length-prefixed authentication data
(zero length valid, field optional), then the certificate data, type
tag first; trailing bytes after all declared fields are rejected
(spec section 4.7). -/
def parseSigData (r : List Byte) :
    Except Status (List Byte × List Byte × IntelCertData) :=
  if kSignatureSize ≤ r.length then
    let signature := r.take kSignatureSize
    let r4 := r.drop kSignatureSize
    if 2 ≤ r4.length then
      let authnLen := decodeUint16 (r4.take 2)
      let r5 := r4.drop 2
      if authnLen ≤ r5.length then
        let authn := r5.take authnLen
        let r6 := r5.drop authnLen
        if 2 ≤ r6.length then
          let certType := decodeUint16 (r6.take 2)
          let r7 := r6.drop 2
          if 4 ≤ r7.length then
            let certLen := decodeUint32 (r7.take 4)
            let r8 := r7.drop 4
            if certLen ≤ r8.length then
              let certData := r8.take certLen
              if (r8.drop certLen).length = 0 then
                .ok (signature, authn, ⟨certType, certData⟩)
              else
                .error (invalidArgument
                  "Quote buffer has trailing bytes after all declared fields")
            else .error (invalidArgument "Input buffer ended before a quote field could be read")
          else .error (invalidArgument "Input buffer ended before a quote field could be read")
        else .error (invalidArgument "Input buffer ended before a quote field could be read")
      else .error (invalidArgument "Input buffer ended before a quote field could be read")
    else .error (invalidArgument "Input buffer ended before a quote field could be read")
  else .error (invalidArgument "Input buffer ended before a quote field could be read")

/-- Modelled from the spec: `ParseDcapPackedQuote` reads the fixed
header and body, the declared signature-data size, and checks that the
declared size matches the remaining input exactly (rejecting with a
message naming the expected size), then parses the signature-data
region; every validation failure yields INVALID_ARGUMENT (spec
section 4.7). -/
def ParseDcapPackedQuote (b : List Byte) : Except Status IntelQeQuote :=
  if kHeaderSize ≤ b.length then
    let header := b.take kHeaderSize
    let r1 := b.drop kHeaderSize
    if kBodySize ≤ r1.length then
      let body := r1.take kBodySize
      let r2 := r1.drop kBodySize
      if 4 ≤ r2.length then
        let declared := decodeUint32 (r2.take 4)
        let r3 := r2.drop 4
        if declared = r3.length then
          (parseSigData r3).map (fun v => ⟨header, body, v.1, v.2.1, v.2.2⟩)
        else .error (invalidArgument (expectedSizeMessage declared r3.length))
      else readFailure
    else readFailure
  else readFailure

instance {ε α : Type} [DecidableEq ε] [DecidableEq α] : DecidableEq (Except ε α) := fun x y =>
  match x, y with
  | .ok a, .ok b =>
      if h : a = b then isTrue (by rw [h])
      else isFalse (by intro hc; injection hc; contradiction)
  | .ok _, .error _ => isFalse (by intro hc; exact Except.noConfusion hc)
  | .error _, .ok _ => isFalse (by intro hc; exact Except.noConfusion hc)
  | .error e, .error f =>
      if h : e = f then isTrue (by rw [h])
      else isFalse (by intro hc; injection hc; contradiction)

/-- Modelled from the spec: the enclave identity type enumeration of the
identity model (spec section 3); UNKNOWN_IDENTITY is the default value
of the protobuf enum. -/
inductive EnclaveIdentityType where
  | UNKNOWN_IDENTITY
  | NULL_IDENTITY
  | CODE_IDENTITY
  | CERT_IDENTITY
deriving DecidableEq

/-- Modelled from the spec: an identity description naming what kind of
identity and which scheme produced or accepts it (spec section 3). -/
structure AssertionDescription where
  identity_type : EnclaveIdentityType
  authority_type : String
deriving DecidableEq

/-- Modelled from the spec: an offer advertising what a generator can
produce (spec section 3). -/
structure AssertionOffer where
  description : AssertionDescription
  additional_information : String
deriving DecidableEq

/-- Modelled from the spec: a request for evidence produced by a
verifier (spec section 3). -/
structure AssertionRequest where
  description : AssertionDescription
  additional_information : String
deriving DecidableEq

/-- Modelled from the spec: the evidence itself, opaque outside its
scheme (spec section 3). -/
structure Assertion where
  description : AssertionDescription
  assertion : String
deriving DecidableEq

/-- Modelled from the spec: a verification result, extracted identity
bytes plus the description that produced them (spec section 3). -/
structure EnclaveIdentity where
  description : AssertionDescription
  identity : String
deriving DecidableEq

/-- The default (empty) protobuf value of a description. -/
def emptyAssertionDescription : AssertionDescription := ⟨.UNKNOWN_IDENTITY, ""⟩
/-- Modelled from the spec: the null scheme's authority type string
(spec section 8, end-to-end scenario). -/
def kNullAssertionAuthority : String := "Null assertion authority"
/-- Modelled from the spec: the authority type recorded in the identity
extracted by the null verifier.  The spec fixes only that it is a
scheme constant; the concrete string is immaterial. -/
def kNullAuthorizationAuthority : String := "Null authorization authority"
/-- Modelled from the spec: the fixed, non-empty null-identity payload
(spec section 4.4). -/
def kNullIdentity : String := "Null identity"
/-- Modelled from the spec: the one fixed valid assertion payload the
null scheme recognizes (spec section 4.4). -/
def kNullAssertion : String := "Null assertion"
/-- The description of the null scheme: NULL_IDENTITY plus the null
assertion authority type. -/
def nullAssertionDescription : AssertionDescription :=
  ⟨.NULL_IDENTITY, kNullAssertionAuthority⟩

/-- Modelled from the spec: the null generator's offer — the fixed
description with empty additional information (spec section 4.4). -/
def NullAssertionGenerator.CreateAssertionOffer : Except Status AssertionOffer :=
  .ok ⟨nullAssertionDescription, ""⟩

/-- Modelled from the spec: the null generator can generate exactly for
requests whose description matches its own; incompatibility is reported
as false, never as an error (spec sections 4.2 and 4.4). -/
def NullAssertionGenerator.CanGenerate (request : AssertionRequest) :
    Except Status Bool :=
  .ok (decide (request.description = nullAssertionDescription))

/-- Modelled from the spec: generation succeeds for a matching request,
producing the fixed payload, and fails with INVALID_ARGUMENT otherwise,
leaving the output assertion untouched (spec sections 4.2 and 4.4).
The null scheme does not bind the handshake context into its
evidence. -/
def NullAssertionGenerator.Generate (context : String) (request : AssertionRequest)
    (a : Assertion) : Status × Assertion :=
  if request.description = nullAssertionDescription then
    (Status.okStatus, ⟨nullAssertionDescription, kNullAssertion⟩)
  else (invalidArgument "Invalid assertion request for the null assertion authority", a)

/-- Modelled from the spec: the null verifier's request — the fixed
description with empty additional information (spec section 4.4). -/
def NullAssertionVerifier.CreateAssertionRequest : Except Status AssertionRequest :=
  .ok ⟨nullAssertionDescription, ""⟩

/-- Modelled from the spec: the null verifier accepts exactly offers
whose description matches its own; incompatibility is reported as
false, never as an error (spec sections 4.3 and 4.4). -/
def NullAssertionVerifier.CanVerify (offer : AssertionOffer) : Except Status Bool :=
  .ok (decide (offer.description = nullAssertionDescription))

/-- Modelled from the spec: verification succeeds only if the
assertion's description matches exactly and the assertion bytes equal
the one fixed valid payload; anything else is rejected with
INVALID_ARGUMENT and the output identity is left untouched
(spec sections 4.3 and 4.4). -/
def NullAssertionVerifier.Verify (context : String) (a : Assertion)
    (identity : EnclaveIdentity) : Status × EnclaveIdentity :=
  if a.description = nullAssertionDescription then
    if a.assertion = kNullAssertion then
      (Status.okStatus, ⟨⟨.NULL_IDENTITY, kNullAuthorizationAuthority⟩, kNullIdentity⟩)
    else (invalidArgument "Invalid assertion for the null assertion authority", identity)
  else (invalidArgument "Assertion description does not match the null scheme", identity)

/-- The stable name of each identity type, used in key derivation. -/
def EnclaveIdentityType.enumName : EnclaveIdentityType → String
  | .UNKNOWN_IDENTITY => "UNKNOWN_IDENTITY"
  | .NULL_IDENTITY => "NULL_IDENTITY"
  | .CODE_IDENTITY => "CODE_IDENTITY"
  | .CERT_IDENTITY => "CERT_IDENTITY"

/-- Modelled from the spec: the deterministic authority-key derivation
from an (identity type, authority type) pair (spec sections 3 and 4.1);
the concrete encoding is immaterial as long as it is a stable function
of the pair. -/
def authorityKeyOf (it : EnclaveIdentityType) (authority : String) : String :=
  it.enumName ++ ":" ++ authority

/-- Modelled from the spec: `GenerateAuthorityId` derives the registry
key, failing with INVALID_ARGUMENT for an empty authority type
(spec section 4.1). -/
def GenerateAuthorityId (it : EnclaveIdentityType) (authority : String) :
    Except Status String :=
  if authority = "" then .error (invalidArgument "Authority type must be non-empty")
  else .ok (authorityKeyOf it authority)

/-- The generator instances registered in this process. -/
inductive RegisteredGenerator where
  | nullAssertionGenerator
deriving DecidableEq

/-- The verifier instances registered in this process. -/
inductive RegisteredVerifier where
  | nullAssertionVerifier
deriving DecidableEq

/-- Modelled from the spec: the process-wide map from authority key to
registered generator instance (spec section 4.5), populated with the
null scheme. -/
def AssertionGeneratorMap : List (String × RegisteredGenerator) :=
  [(authorityKeyOf .NULL_IDENTITY kNullAssertionAuthority, .nullAssertionGenerator)]

/-- Modelled from the spec: the process-wide map from authority key to
registered verifier instance (spec section 4.5), populated with the
null scheme. -/
def AssertionVerifierMap : List (String × RegisteredVerifier) :=
  [(authorityKeyOf .NULL_IDENTITY kNullAssertionAuthority, .nullAssertionVerifier)]

/-- A concrete structurally valid quote used to instantiate the
hypotheses of the codec theorems on explicit input. -/
def qWitness : IntelQeQuote :=
  ⟨List.replicate kHeaderSize (7 : Byte), List.replicate kBodySize (3 : Byte),
   List.replicate kSignatureSize (1 : Byte), [(9 : Byte), (8 : Byte), (7 : Byte)],
   ⟨5, [(2 : Byte), (4 : Byte)]⟩⟩

theorem decode_encodeUint16 (n : Nat) (h : n < 2 ^ 16) :
    decodeUint16 (encodeUint16 n) = n := by
  simp only [encodeUint16, decodeUint16, byteOf]
  omega

theorem decode_encodeUint32 (n : Nat) (h : n < 2 ^ 32) :
    decodeUint32 (encodeUint32 n) = n := by
  simp only [encodeUint32, decodeUint32, byteOf]
  omega

theorem encode_decodeUint16 (l : List Byte) (h : l.length = 2) :
    encodeUint16 (decodeUint16 l) = l := by
  match l, h with
  | [b0, b1], _ =>
    have hb0 := b0.isLt
    have hb1 := b1.isLt
    simp only [encodeUint16, decodeUint16, byteOf]
    refine List.ext_getElem (by simp) ?_
    intro i h1 h2
    match i, h2 with
    | 0, _ => apply Fin.ext; simp; try omega
    | 1, _ => apply Fin.ext; simp; try omega

theorem encode_decodeUint32 (l : List Byte) (h : l.length = 4) :
    encodeUint32 (decodeUint32 l) = l := by
  match l, h with
  | [b0, b1, b2, b3], _ =>
    have hb0 := b0.isLt
    have hb1 := b1.isLt
    have hb2 := b2.isLt
    have hb3 := b3.isLt
    simp only [encodeUint32, decodeUint32, byteOf]
    refine List.ext_getElem (by simp) ?_
    intro i h1 h2
    match i, h2 with
    | 0, _ => apply Fin.ext; simp; try omega
    | 1, _ => apply Fin.ext; simp; try omega
    | 2, _ => apply Fin.ext; simp; try omega
    | 3, _ => apply Fin.ext; simp; try omega

theorem length_encodeUint16 (n : Nat) : (encodeUint16 n).length = 2 := rfl

theorem length_encodeUint32 (n : Nat) : (encodeUint32 n).length = 4 := rfl

/-- Evaluation of `parseSigData` on a well-formed packed signature-data
region: it returns exactly the fields that were packed. -/
theorem parseSigData_pack (sig authn cert : List Byte) (t : Nat)
    (hs : sig.length = kSignatureSize) (ha : authn.length < 2 ^ 16)
    (ht : t < 2 ^ 16) (hc : cert.length < 2 ^ 32) :
    parseSigData (sig ++ (encodeUint16 authn.length ++ (authn ++
      (encodeUint16 t ++ (encodeUint32 cert.length ++ cert))))) =
      .ok (sig, authn, ⟨t, cert⟩) := by
  simp only [parseSigData]
  rw [List.take_left' hs, List.drop_left' hs,
      List.take_left' (length_encodeUint16 authn.length),
      List.drop_left' (length_encodeUint16 authn.length),
      decode_encodeUint16 _ ha,
      List.take_left, List.drop_left,
      List.take_left' (length_encodeUint16 t),
      List.drop_left' (length_encodeUint16 t),
      decode_encodeUint16 _ ht,
      List.take_left' (length_encodeUint32 cert.length),
      List.drop_left' (length_encodeUint32 cert.length),
      decode_encodeUint32 _ hc,
      List.take_length, List.drop_length]
  rw [if_pos (by simp [List.length_append, hs]),
      if_pos (by simp [List.length_append, length_encodeUint16]),
      if_pos (by simp [List.length_append, length_encodeUint16]; try omega),
      if_pos (by simp [List.length_append, length_encodeUint16, length_encodeUint32]),
      if_pos (by simp [List.length_append, length_encodeUint32]),
      if_pos (le_refl cert.length),
      if_pos (show List.length ([] : List Byte) = 0 by rfl)]

/-- Evaluation of `ParseDcapPackedQuote` on an input whose fixed prefix
is well-formed: the parse reduces to the declared-size check followed
by signature-region parsing. -/
theorem parse_shape (header body R : List Byte) (L : Nat)
    (hh : header.length = kHeaderSize) (hb : body.length = kBodySize)
    (hL : L < 2 ^ 32) :
    ParseDcapPackedQuote (header ++ (body ++ (encodeUint32 L ++ R))) =
      if L = R.length then
        (parseSigData R).map (fun v => ⟨header, body, v.1, v.2.1, v.2.2⟩)
      else .error (invalidArgument (expectedSizeMessage L R.length)) := by
  simp only [ParseDcapPackedQuote]
  rw [List.take_left' hh, List.drop_left' hh, List.take_left' hb, List.drop_left' hb,
      List.take_left' (length_encodeUint32 L), List.drop_left' (length_encodeUint32 L),
      decode_encodeUint32 _ hL]
  rw [if_pos (by simp [List.length_append, hh]),
      if_pos (by simp [List.length_append, hb]),
      if_pos (by simp [List.length_append, length_encodeUint32])]

theorem length_PackDcapQuote (q : IntelQeQuote) (hh : q.header.length = kHeaderSize)
    (hb : q.body.length = kBodySize) (hs : q.signature.length = kSignatureSize) :
    (PackDcapQuote q).length = kHeaderSize + kBodySize + 4 + sigDataSize q := by
  simp [PackDcapQuote, List.length_append, hh, hb, hs, length_encodeUint16,
    length_encodeUint32, sigDataSize]
  omega

/-- C1: for every structurally valid IntelQeQuote, including one whose
qe_authn_data is empty, ParseDcapPackedQuote of PackDcapQuote succeeds
and returns the quote unchanged, field for field. -/
theorem parse_pack_roundtrip (q : IntelQeQuote) (hq : StructurallyValid q) :
    ParseDcapPackedQuote (PackDcapQuote q) = .ok q := by
  obtain ⟨hh, hb, hs, ha, htc, hL⟩ := hq
  have hL' : sigDataSize q < 2 ^ 32 := hL
  have hc : q.cert_data.qe_cert_data.length < 2 ^ 32 := by
    unfold sigDataSize at hL'; omega
  rw [show PackDcapQuote q = q.header ++ (q.body ++ (encodeUint32 (sigDataSize q) ++
      (q.signature ++ (encodeUint16 q.qe_authn_data.length ++ (q.qe_authn_data ++
      (encodeUint16 q.cert_data.qe_cert_data_type ++
      (encodeUint32 q.cert_data.qe_cert_data.length ++
      q.cert_data.qe_cert_data))))))) from rfl]
  rw [parse_shape _ _ _ _ hh hb hL']
  rw [if_pos (by
    simp [List.length_append, hs, length_encodeUint16, length_encodeUint32, sigDataSize]
    omega)]
  rw [parseSigData_pack _ _ _ _ hs ha htc hc]
  rfl

set_option maxRecDepth 1000000 in
/-- Witness for C1 at a concrete quote. -/
theorem parse_pack_roundtrip_witness :
    ParseDcapPackedQuote (PackDcapQuote qWitness) = .ok qWitness :=
  parse_pack_roundtrip qWitness (by decide)

theorem parse_short_fails (b : List Byte) (h : b.length < kHeaderSize + kBodySize + 4) :
    ∃ m, ParseDcapPackedQuote b = .error (invalidArgument m) := by
  simp only [ParseDcapPackedQuote]
  by_cases h1 : kHeaderSize ≤ b.length
  · rw [if_pos h1]
    by_cases h2 : kBodySize ≤ (b.drop kHeaderSize).length
    · rw [if_pos h2]
      by_cases h3 : 4 ≤ ((b.drop kHeaderSize).drop kBodySize).length
      · exfalso
        simp only [List.length_drop] at h2 h3
        omega
      · rw [if_neg h3]; exact ⟨_, rfl⟩
    · rw [if_neg h2]; exact ⟨_, rfl⟩
  · rw [if_neg h1]; exact ⟨_, rfl⟩

/-- C2: removing any non-empty suffix from a valid packed quote — every
truncation length, down to the empty buffer — makes ParseDcapPackedQuote
fail with INVALID_ARGUMENT. -/
theorem parse_truncation_fails (q : IntelQeQuote) (hq : StructurallyValid q)
    (t : Nat) (ht : t < (PackDcapQuote q).length) :
    ∃ m, ParseDcapPackedQuote ((PackDcapQuote q).take t) =
      .error ⟨.INVALID_ARGUMENT, m⟩ := by
  obtain ⟨hh, hb, hs, ha, htc, hL⟩ := hq
  have hL' : sigDataSize q < 2 ^ 32 := hL
  have hlen := length_PackDcapQuote q hh hb hs
  by_cases hcase : t < kHeaderSize + kBodySize + 4
  · apply parse_short_fails
    simp only [List.length_take]
    omega
  · push_neg at hcase
    -- the truncated buffer still contains the whole fixed prefix
    have hpre : (q.header ++ q.body ++ encodeUint32 (sigDataSize q)).length
        = kHeaderSize + kBodySize + 4 := by
      simp [List.length_append, hh, hb, length_encodeUint32]
      omega
    have hsplit : PackDcapQuote q = (q.header ++ q.body ++ encodeUint32 (sigDataSize q)) ++
        (q.signature ++ (encodeUint16 q.qe_authn_data.length ++ (q.qe_authn_data ++
        (encodeUint16 q.cert_data.qe_cert_data_type ++
        (encodeUint32 q.cert_data.qe_cert_data.length ++
        q.cert_data.qe_cert_data))))) := by
      simp [PackDcapQuote, List.append_assoc]
    set R := q.signature ++ (encodeUint16 q.qe_authn_data.length ++ (q.qe_authn_data ++
        (encodeUint16 q.cert_data.qe_cert_data_type ++
        (encodeUint32 q.cert_data.qe_cert_data.length ++
        q.cert_data.qe_cert_data)))) with hR
    have hRlen : R.length = sigDataSize q := by
      simp [hR, List.length_append, hs, length_encodeUint16, length_encodeUint32, sigDataSize]
      omega
    have ht' : t = (q.header ++ q.body ++ encodeUint32 (sigDataSize q)).length +
        (t - (kHeaderSize + kBodySize + 4)) := by omega
    rw [hsplit, ht', List.take_append]
    rw [List.append_assoc, List.append_assoc]
    rw [parse_shape _ _ _ _ hh hb hL']
    rw [if_neg (by
      simp only [List.length_take]
      rw [hRlen]
      omega)]
    exact ⟨_, rfl⟩

set_option maxRecDepth 1000000 in
/-- Witness for C2 at a concrete quote and truncation length. -/
theorem parse_truncation_fails_witness :
    ∃ m, ParseDcapPackedQuote ((PackDcapQuote qWitness).take 100) =
      .error ⟨.INVALID_ARGUMENT, m⟩ :=
  parse_truncation_fails qWitness (by decide) 100 (by decide)

/-- C3: appending any extra byte to a valid packed quote makes
ParseDcapPackedQuote fail with INVALID_ARGUMENT, with an error message
containing the text "Expected signature data size of ". -/
theorem parse_oversize_fails (q : IntelQeQuote) (hq : StructurallyValid q) (x : Byte) :
    ParseDcapPackedQuote (PackDcapQuote q ++ [x]) =
      .error ⟨.INVALID_ARGUMENT,
        expectedSizeMessage (sigDataSize q) (sigDataSize q + 1)⟩ ∧
    ∃ rest, expectedSizeMessage (sigDataSize q) (sigDataSize q + 1) =
      "Expected signature data size of " ++ rest := by
  obtain ⟨hh, hb, hs, ha, htc, hL⟩ := hq
  have hL' : sigDataSize q < 2 ^ 32 := hL
  have hsplit : PackDcapQuote q ++ [x] = q.header ++ (q.body ++
      (encodeUint32 (sigDataSize q) ++
      (q.signature ++ (encodeUint16 q.qe_authn_data.length ++ (q.qe_authn_data ++
      (encodeUint16 q.cert_data.qe_cert_data_type ++
      (encodeUint32 q.cert_data.qe_cert_data.length ++
      (q.cert_data.qe_cert_data ++ [x])))))))) := by
    simp [PackDcapQuote, List.append_assoc]
  constructor
  · rw [hsplit, parse_shape _ _ _ _ hh hb hL']
    have hRlen : (q.signature ++ (encodeUint16 q.qe_authn_data.length ++ (q.qe_authn_data ++
        (encodeUint16 q.cert_data.qe_cert_data_type ++
        (encodeUint32 q.cert_data.qe_cert_data.length ++
        (q.cert_data.qe_cert_data ++ [x])))))).length = sigDataSize q + 1 := by
      simp [List.length_append, hs, length_encodeUint16, length_encodeUint32, sigDataSize]
      omega
    rw [if_neg (by rw [hRlen]; omega), hRlen]
    rfl
  · exact ⟨_, rfl⟩

set_option maxRecDepth 1000000 in
/-- Witness for C3 at a concrete quote and appended byte. -/
theorem parse_oversize_fails_witness :
    ParseDcapPackedQuote (PackDcapQuote qWitness ++ [(120 : Byte)]) =
      .error ⟨.INVALID_ARGUMENT,
        expectedSizeMessage (sigDataSize qWitness) (sigDataSize qWitness + 1)⟩ ∧
    ∃ rest, expectedSizeMessage (sigDataSize qWitness) (sigDataSize qWitness + 1) =
      "Expected signature data size of " ++ rest :=
  parse_oversize_fails qWitness (by decide) (120 : Byte)

theorem parseSigData_ok_inv (r sig authn : List Byte) (cd : IntelCertData)
    (h : parseSigData r = .ok (sig, authn, cd)) :
    r = sig ++ (encodeUint16 authn.length ++ (authn ++
      (encodeUint16 cd.qe_cert_data_type ++
      (encodeUint32 cd.qe_cert_data.length ++ cd.qe_cert_data)))) ∧
    r.length = kSignatureSize + 2 + authn.length + 2 + 4 + cd.qe_cert_data.length := by
  simp only [parseSigData] at h
  by_cases h1 : kSignatureSize ≤ r.length
  case neg => rw [if_neg h1] at h; cases h
  rw [if_pos h1] at h
  set s1 := r.drop kSignatureSize with hs1
  by_cases h2 : 2 ≤ s1.length
  case neg => rw [if_neg h2] at h; cases h
  rw [if_pos h2] at h
  set aLen := decodeUint16 (s1.take 2) with haLen
  set s2 := s1.drop 2 with hs2
  by_cases h3 : aLen ≤ s2.length
  case neg => rw [if_neg h3] at h; cases h
  rw [if_pos h3] at h
  set s3 := s2.drop aLen with hs3
  by_cases h4 : 2 ≤ s3.length
  case neg => rw [if_neg h4] at h; cases h
  rw [if_pos h4] at h
  set ct := decodeUint16 (s3.take 2) with hct
  set s4 := s3.drop 2 with hs4
  by_cases h5 : 4 ≤ s4.length
  case neg => rw [if_neg h5] at h; cases h
  rw [if_pos h5] at h
  set cLen := decodeUint32 (s4.take 4) with hcLen
  set s5 := s4.drop 4 with hs5
  by_cases h6 : cLen ≤ s5.length
  case neg => rw [if_neg h6] at h; cases h
  rw [if_pos h6] at h
  by_cases h7 : (s5.drop cLen).length = 0
  case neg => rw [if_neg h7] at h; cases h
  rw [if_pos h7] at h
  -- invert the ok
  injection h with h
  have hsig : sig = r.take kSignatureSize := (congrArg Prod.fst h).symm
  have hauthn : authn = s2.take aLen := (congrArg (fun p => p.2.1) h).symm
  have hcd : cd = ⟨ct, s5.take cLen⟩ := (congrArg (fun p => p.2.2) h).symm
  have halen : authn.length = aLen := by
    rw [hauthn, List.length_take]; omega
  have hclen : cd.qe_cert_data.length = cLen := by
    rw [hcd, List.length_take]; omega
  have hctype : cd.qe_cert_data_type = ct := by rw [hcd]
  have hs5cert : s5 = cd.qe_cert_data := by
    have := List.take_append_drop cLen s5
    rw [List.eq_nil_of_length_eq_zero h7] at this
    rw [hcd]
    simpa using this.symm
  have hs4eq : s4 = encodeUint32 cd.qe_cert_data.length ++ cd.qe_cert_data := by
    have hlen4 : (s4.take 4).length = 4 := by rw [List.length_take]; omega
    calc s4 = s4.take 4 ++ s4.drop 4 := (List.take_append_drop 4 s4).symm
    _ = encodeUint32 (decodeUint32 (s4.take 4)) ++ s5 := by
          rw [encode_decodeUint32 _ hlen4]
    _ = encodeUint32 cd.qe_cert_data.length ++ cd.qe_cert_data := by
          rw [← hcLen, hclen, hs5cert]
  have hs3eq : s3 = encodeUint16 cd.qe_cert_data_type ++
      (encodeUint32 cd.qe_cert_data.length ++ cd.qe_cert_data) := by
    have hlen2 : (s3.take 2).length = 2 := by rw [List.length_take]; omega
    calc s3 = s3.take 2 ++ s3.drop 2 := (List.take_append_drop 2 s3).symm
    _ = encodeUint16 (decodeUint16 (s3.take 2)) ++ s4 := by
          rw [encode_decodeUint16 _ hlen2]
    _ = _ := by rw [← hct, hctype, hs4eq]
  have hs2eq : s2 = authn ++ s3 := by
    calc s2 = s2.take aLen ++ s2.drop aLen := (List.take_append_drop aLen s2).symm
    _ = authn ++ s3 := by rw [← hauthn, ← hs3]
  have hs1eq : s1 = encodeUint16 authn.length ++ (authn ++ s3) := by
    have hlen2 : (s1.take 2).length = 2 := by rw [List.length_take]; omega
    calc s1 = s1.take 2 ++ s1.drop 2 := (List.take_append_drop 2 s1).symm
    _ = encodeUint16 (decodeUint16 (s1.take 2)) ++ s2 := by
          rw [encode_decodeUint16 _ hlen2]
    _ = _ := by rw [← haLen, halen, hs2eq]
  have hreq : r = sig ++ s1 := by
    calc r = r.take kSignatureSize ++ r.drop kSignatureSize :=
          (List.take_append_drop kSignatureSize r).symm
    _ = sig ++ s1 := by rw [← hsig, ← hs1]
  constructor
  · rw [hreq, hs1eq, hs3eq]
  · rw [hreq]
    simp only [List.length_append, hs1eq, hs3eq, length_encodeUint16, length_encodeUint32]
    have : sig.length = kSignatureSize := by
      rw [hsig, List.length_take]; omega
    omega

/-- C10: pack is a right inverse of parse on parse's image — every byte
string that ParseDcapPackedQuote accepts re-packs byte-for-byte to
itself, so the packed wire form of a quote is canonical. -/
theorem pack_parse_canonical (b : List Byte) (q : IntelQeQuote)
    (h : ParseDcapPackedQuote b = .ok q) : PackDcapQuote q = b := by
  simp only [ParseDcapPackedQuote] at h
  by_cases h1 : kHeaderSize ≤ b.length
  case neg => rw [if_neg h1] at h; cases h
  rw [if_pos h1] at h
  set r1 := b.drop kHeaderSize with hr1
  by_cases h2 : kBodySize ≤ r1.length
  case neg => rw [if_neg h2] at h; cases h
  rw [if_pos h2] at h
  set r2 := r1.drop kBodySize with hr2
  by_cases h3 : 4 ≤ r2.length
  case neg => rw [if_neg h3] at h; cases h
  rw [if_pos h3] at h
  set declared := decodeUint32 (r2.take 4) with hdecl
  set r3 := r2.drop 4 with hr3
  by_cases h4 : declared = r3.length
  case neg => rw [if_neg h4] at h; cases h
  rw [if_pos h4] at h
  cases hps : parseSigData r3 with
  | error e => rw [hps] at h; simp [Except.map] at h
  | ok v =>
    obtain ⟨sig, authn, cd⟩ := v
    rw [hps] at h
    simp only [Except.map] at h
    injection h with h
    obtain ⟨hreg, hlen⟩ := parseSigData_ok_inv r3 sig authn cd hps
    subst h
    -- declared size equals the signature-data size of the result
    have hsds : sigDataSize ⟨b.take kHeaderSize, r1.take kBodySize, sig, authn, cd⟩
        = r3.length := by
      unfold sigDataSize
      dsimp only
      omega
    have hlen4 : (r2.take 4).length = 4 := by rw [List.length_take]; omega
    have henc : encodeUint32 (sigDataSize ⟨b.take kHeaderSize, r1.take kBodySize, sig, authn, cd⟩)
        = r2.take 4 := by
      rw [hsds, ← h4, hdecl, encode_decodeUint32 _ hlen4]
    calc PackDcapQuote ⟨b.take kHeaderSize, r1.take kBodySize, sig, authn, cd⟩
        = b.take kHeaderSize ++ (r1.take kBodySize ++
          (encodeUint32 (sigDataSize ⟨b.take kHeaderSize, r1.take kBodySize, sig, authn, cd⟩) ++
          (sig ++ (encodeUint16 authn.length ++ (authn ++
          (encodeUint16 cd.qe_cert_data_type ++
          (encodeUint32 cd.qe_cert_data.length ++
          cd.qe_cert_data))))))) := rfl
    _ = b.take kHeaderSize ++ (r1.take kBodySize ++ ((r2.take 4) ++ r3)) := by
          rw [henc, ← hreg]
    _ = b.take kHeaderSize ++ (r1.take kBodySize ++ r2) := by
          rw [List.take_append_drop 4 r2]
    _ = b.take kHeaderSize ++ r1 := by rw [List.take_append_drop kBodySize r1]
    _ = b := List.take_append_drop kHeaderSize b

set_option maxRecDepth 1000000 in
/-- Witness for C10 at a concrete accepted byte string. -/
theorem pack_parse_canonical_witness :
    PackDcapQuote qWitness = PackDcapQuote qWitness :=
  pack_parse_canonical (PackDcapQuote qWitness) qWitness (by decide)

/-- C4: the null verifier's Verify succeeds exactly when the
assertion's description matches the null scheme's description and the
assertion bytes equal the single fixed valid payload; every other
assertion is rejected with INVALID_ARGUMENT. -/
theorem null_verify_iff_fixed_payload (context : String) (a : Assertion)
    (out : EnclaveIdentity) :
    (((NullAssertionVerifier.Verify context a out).1).code = .OK ↔
      (a.description = nullAssertionDescription ∧ a.assertion = kNullAssertion)) ∧
    (¬(a.description = nullAssertionDescription ∧ a.assertion = kNullAssertion) →
      ((NullAssertionVerifier.Verify context a out).1).code = .INVALID_ARGUMENT) := by
  unfold NullAssertionVerifier.Verify
  by_cases h1 : a.description = nullAssertionDescription
  · by_cases h2 : a.assertion = kNullAssertion
    · simp [h1, h2, Status.okStatus]
    · simp [h1, h2, invalidArgument]
  · simp [h1, invalidArgument]

/-- C5: for the matched null generator/verifier pair, the verifier can
verify every offer the generator creates, and the generator can
generate — and Generate succeeds — for every request the verifier
creates, for any handshake context. -/
theorem null_scheme_compatibility (context : String) (out : Assertion)
    (offer : AssertionOffer) (request : AssertionRequest)
    (hoffer : NullAssertionGenerator.CreateAssertionOffer = .ok offer)
    (hrequest : NullAssertionVerifier.CreateAssertionRequest = .ok request) :
    NullAssertionVerifier.CanVerify offer = .ok true ∧
    NullAssertionGenerator.CanGenerate request = .ok true ∧
    ((NullAssertionGenerator.Generate context request out).1).code = .OK := by
  injection hoffer with hoffer
  injection hrequest with hrequest
  subst hoffer
  subst hrequest
  refine ⟨rfl, rfl, ?_⟩
  unfold NullAssertionGenerator.Generate
  rw [if_pos rfl]
  rfl

/-- C6: for every well-formed offer or request whose description does
not match the scheme (including the empty default value), CanVerify and
CanGenerate return Ok false, never an error. -/
theorem null_probes_return_false_on_mismatch (offer : AssertionOffer)
    (request : AssertionRequest)
    (hoffer : offer.description ≠ nullAssertionDescription)
    (hrequest : request.description ≠ nullAssertionDescription) :
    NullAssertionVerifier.CanVerify offer = .ok false ∧
    NullAssertionGenerator.CanGenerate request = .ok false := by
  unfold NullAssertionVerifier.CanVerify NullAssertionGenerator.CanGenerate
  simp [hoffer, hrequest]

/-- C7: whenever CanGenerate would return false, Generate fails with
INVALID_ARGUMENT or FAILED_PRECONDITION and leaves the output assertion
unchanged. -/
theorem null_generate_fails_cleanly (context : String) (request : AssertionRequest)
    (out : Assertion)
    (h : NullAssertionGenerator.CanGenerate request = .ok false) :
    (((NullAssertionGenerator.Generate context request out).1).code = .INVALID_ARGUMENT ∨
      ((NullAssertionGenerator.Generate context request out).1).code = .FAILED_PRECONDITION) ∧
    (NullAssertionGenerator.Generate context request out).2 = out := by
  unfold NullAssertionGenerator.CanGenerate at h
  injection h with h
  have hne : request.description ≠ nullAssertionDescription := by
    intro hc
    rw [hc] at h
    simp at h
  unfold NullAssertionGenerator.Generate
  rw [if_neg hne]
  exact ⟨Or.inl rfl, rfl⟩

/-- C8: when the null verifier's Verify succeeds, the populated output
identity has the null description and the fixed null-identity payload;
hence verifying the same assertion again yields the same extracted
identity (deterministic extraction). -/
theorem null_verify_extracts_fixed_identity (context context2 : String)
    (a : Assertion) (out out2 : EnclaveIdentity)
    (h : ((NullAssertionVerifier.Verify context a out).1).code = .OK) :
    ((NullAssertionVerifier.Verify context a out).2).description =
      ⟨.NULL_IDENTITY, kNullAuthorizationAuthority⟩ ∧
    ((NullAssertionVerifier.Verify context a out).2).identity = kNullIdentity ∧
    (((NullAssertionVerifier.Verify context2 a out2).1).code = .OK →
      (NullAssertionVerifier.Verify context2 a out2).2 =
        (NullAssertionVerifier.Verify context a out).2) := by
  unfold NullAssertionVerifier.Verify at *
  by_cases h1 : a.description = nullAssertionDescription
  · by_cases h2 : a.assertion = kNullAssertion
    · simp [h1, h2]
    · rw [if_pos h1, if_neg h2] at h
      simp [invalidArgument] at h
  · rw [if_neg h1] at h
    simp [invalidArgument] at h

/-- C9: authority-key derivation is deterministic — descriptions with
equal (identity type, authority type) pairs derive equal keys — and the
key derived from the null description selects both the registered null
generator and the registered null verifier. -/
theorem authority_id_deterministic :
    (∀ d1 d2 : AssertionDescription,
      d1.identity_type = d2.identity_type → d1.authority_type = d2.authority_type →
      GenerateAuthorityId d1.identity_type d1.authority_type =
        GenerateAuthorityId d2.identity_type d2.authority_type) ∧
    (∀ key, GenerateAuthorityId nullAssertionDescription.identity_type
        nullAssertionDescription.authority_type = .ok key →
      AssertionGeneratorMap.lookup key = some .nullAssertionGenerator ∧
      AssertionVerifierMap.lookup key = some .nullAssertionVerifier) := by
  constructor
  · intro d1 d2 h1 h2
    rw [h1, h2]
  · intro key hk
    have hkey : key = authorityKeyOf .NULL_IDENTITY kNullAssertionAuthority := by
      unfold GenerateAuthorityId nullAssertionDescription at hk
      rw [if_neg (by unfold kNullAssertionAuthority; decide)] at hk
      injection hk with hk
      exact hk.symm
    subst hkey
    constructor <;> simp [AssertionGeneratorMap, AssertionVerifierMap, List.lookup]

/-- Witness for C4 at a concrete mismatched assertion. -/
theorem null_verify_iff_fixed_payload_witness :
    ((NullAssertionVerifier.Verify "EKEP handshake transcript and public key"
      ⟨⟨.CODE_IDENTITY, "SGX Local"⟩, "assertion"⟩
      ⟨emptyAssertionDescription, ""⟩).1).code = .INVALID_ARGUMENT :=
  (null_verify_iff_fixed_payload "EKEP handshake transcript and public key"
    ⟨⟨.CODE_IDENTITY, "SGX Local"⟩, "assertion"⟩
    ⟨emptyAssertionDescription, ""⟩).2 (by decide)

/-- Witness for C5 at the concrete offer and request the null scheme
creates. -/
theorem null_scheme_compatibility_witness :
    NullAssertionVerifier.CanVerify ⟨nullAssertionDescription, ""⟩ = .ok true ∧
    NullAssertionGenerator.CanGenerate ⟨nullAssertionDescription, ""⟩ = .ok true ∧
    ((NullAssertionGenerator.Generate "EKEP handshake transcript and public key"
      ⟨nullAssertionDescription, ""⟩ ⟨emptyAssertionDescription, ""⟩).1).code = .OK :=
  null_scheme_compatibility "EKEP handshake transcript and public key"
    ⟨emptyAssertionDescription, ""⟩ ⟨nullAssertionDescription, ""⟩
    ⟨nullAssertionDescription, ""⟩ rfl rfl

/-- Witness for C6 at the empty default offer and request. -/
theorem null_probes_return_false_on_mismatch_witness :
    NullAssertionVerifier.CanVerify ⟨emptyAssertionDescription, ""⟩ = .ok false ∧
    NullAssertionGenerator.CanGenerate ⟨emptyAssertionDescription, ""⟩ = .ok false :=
  null_probes_return_false_on_mismatch ⟨emptyAssertionDescription, ""⟩
    ⟨emptyAssertionDescription, ""⟩ (by decide) (by decide)

/-- Witness for C7 at a concrete mismatched request. -/
theorem null_generate_fails_cleanly_witness :
    (((NullAssertionGenerator.Generate "EKEP handshake transcript and public key"
        ⟨⟨.CODE_IDENTITY, "SGX Local"⟩, "request info"⟩
        ⟨emptyAssertionDescription, ""⟩).1).code = .INVALID_ARGUMENT ∨
      ((NullAssertionGenerator.Generate "EKEP handshake transcript and public key"
        ⟨⟨.CODE_IDENTITY, "SGX Local"⟩, "request info"⟩
        ⟨emptyAssertionDescription, ""⟩).1).code = .FAILED_PRECONDITION) ∧
    (NullAssertionGenerator.Generate "EKEP handshake transcript and public key"
        ⟨⟨.CODE_IDENTITY, "SGX Local"⟩, "request info"⟩
        ⟨emptyAssertionDescription, ""⟩).2 = (⟨emptyAssertionDescription, ""⟩ : Assertion) :=
  null_generate_fails_cleanly "EKEP handshake transcript and public key"
    ⟨⟨.CODE_IDENTITY, "SGX Local"⟩, "request info"⟩
    ⟨emptyAssertionDescription, ""⟩ (by decide)

/-- Witness for C8 at the concrete assertion the null generator
produces. -/
theorem null_verify_extracts_fixed_identity_witness :
    ((NullAssertionVerifier.Verify "EKEP handshake transcript and public key"
      ⟨nullAssertionDescription, kNullAssertion⟩
      ⟨emptyAssertionDescription, ""⟩).2).description =
        ⟨.NULL_IDENTITY, kNullAuthorizationAuthority⟩ ∧
    ((NullAssertionVerifier.Verify "EKEP handshake transcript and public key"
      ⟨nullAssertionDescription, kNullAssertion⟩
      ⟨emptyAssertionDescription, ""⟩).2).identity = kNullIdentity ∧
    (((NullAssertionVerifier.Verify "another context"
      ⟨nullAssertionDescription, kNullAssertion⟩
      ⟨emptyAssertionDescription, "leftover"⟩).1).code = .OK →
      (NullAssertionVerifier.Verify "another context"
        ⟨nullAssertionDescription, kNullAssertion⟩
        ⟨emptyAssertionDescription, "leftover"⟩).2 =
      (NullAssertionVerifier.Verify "EKEP handshake transcript and public key"
        ⟨nullAssertionDescription, kNullAssertion⟩
        ⟨emptyAssertionDescription, ""⟩).2) :=
  null_verify_extracts_fixed_identity "EKEP handshake transcript and public key"
    "another context" ⟨nullAssertionDescription, kNullAssertion⟩
    ⟨emptyAssertionDescription, ""⟩ ⟨emptyAssertionDescription, "leftover"⟩
    (by decide)

/-- Witness for C9: the key derived from the null description selects
both registered instances. -/
theorem authority_id_deterministic_witness :
    AssertionGeneratorMap.lookup (authorityKeyOf .NULL_IDENTITY kNullAssertionAuthority) =
      some .nullAssertionGenerator ∧
    AssertionVerifierMap.lookup (authorityKeyOf .NULL_IDENTITY kNullAssertionAuthority) =
      some .nullAssertionVerifier :=
  authority_id_deterministic.2
    (authorityKeyOf .NULL_IDENTITY kNullAssertionAuthority) (by decide)

end Asylo
